import Mathlib

/-!
Shallow embedding of the response-parsing and scoring pipeline of the
saas-signal-miner repository (src/utils.py and src/main.py).

Python dictionaries holding startup data are modelled by `RawMapping`, a
record of optional fields (a `none` field stands for an absent key).  Python
strings are modelled as `List Char` (`Str`); Python integers as `Int`.
List entries that are not dictionaries (`isinstance(startup, dict)` fails)
are modelled by `Entry.nondict`.
-/

/-- Python strings are embedded as lists of characters. -/
abbrev Str := List Char

/-- Coerce a Lean string literal to the embedding's string type. -/
def str (s : String) : Str := s.data

/-- One startup dictionary: every field optional, `none` meaning the key is
absent from the dictionary. -/
structure RawMapping where
  name : Option Str := none
  description : Option Str := none
  growth_reason : Option Str := none
  source_link : Option Str := none
  sector : Option Str := none
  funding_stage : Option Str := none
  signal_type : Option Str := none
  score : Option Int := none
  timestamp : Option Str := none
deriving DecidableEq

/-- An element of a Python list that may or may not be a dictionary
(the validation loop checks `isinstance(startup, dict)`). -/
inductive Entry where
  | dict (m : RawMapping)
  | nondict
deriving DecidableEq

/-! ### String helpers (models of the Python string operations used) -/

/-- ASCII lower-casing of one character, as `str.lower()` acts on ASCII. -/
def lowerChar (c : Char) : Char :=
  if 'A' ≤ c ∧ c ≤ 'Z' then Char.ofNat (c.toNat + 32) else c

/-- Model of Python `str.lower()` (ASCII fragment). -/
def lowerStr (s : Str) : Str := s.map lowerChar

/-- Does `needle` occur verbatim at the head of `haystack`? -/
def headOccurs : Str → Str → Bool
  | [], _ => true
  | _ :: _, [] => false
  | n :: ns, h :: hs => n = h && headOccurs ns hs

/-- Model of Python `needle in haystack` substring containment. -/
def containsSub (needle : Str) : Str → Bool
  | [] => headOccurs needle []
  | c :: t => headOccurs needle (c :: t) || containsSub needle t

/-- Python `str.isspace` characters in the ASCII range
(space, tab, newline, carriage return, vertical tab, form feed). -/
def isPySpace (c : Char) : Bool :=
  c = ' ' || c = '\t' || c = '\n' || c = '\r' || c = '\x0b' || c = '\x0c'

/-- Model of Python `str.strip()`: remove leading and trailing whitespace. -/
def pyStrip (s : Str) : Str :=
  ((s.dropWhile isPySpace).reverse.dropWhile isPySpace).reverse

/-! ### Heuristic Scorer — `calculate_growth_score` (src/utils.py lines 206-245) -/

/-- Model of `calculate_growth_score`: base 50, three exclusive first-match
if/elif chains over case-insensitive substring checks on the entry's
`funding_stage`, `signal_type` and `sector` (each read with `.get(k, '')`),
with the final value clamped into [0, 100] by `min(100, max(0, score))`. -/
def calculate_growth_score (startup : RawMapping) : Int :=
  let score : Int := 50
  let funding_stage := lowerStr (startup.funding_stage.getD [])
  let score : Int :=
    if containsSub (str "seed") funding_stage then score + 10
    else if containsSub (str "series a") funding_stage then score + 15
    else if containsSub (str "series b") funding_stage then score + 20
    else score
  let signal_type := lowerStr (startup.signal_type.getD [])
  let score : Int :=
    if containsSub (str "funding") signal_type then score + 15
    else if containsSub (str "partnership") signal_type then score + 12
    else if containsSub (str "acquisition") signal_type then score + 20
    else score
  let sector := lowerStr (startup.sector.getD [])
  let score : Int :=
    if containsSub (str "ai") sector || containsSub (str "artificial intelligence") sector then score + 8
    else if containsSub (str "cybersecurity") sector then score + 10
    else if containsSub (str "healthcare") sector then score + 7
    else score
  min 100 (max 0 score)

/-- Contribution of the `funding_stage` if/elif chain, in isolation. -/
def fundingBonus (funding_stage : Str) : Int :=
  let fs := lowerStr funding_stage
  if containsSub (str "seed") fs then 10
  else if containsSub (str "series a") fs then 15
  else if containsSub (str "series b") fs then 20
  else 0

/-- Contribution of the `signal_type` if/elif chain, in isolation. -/
def signalBonus (signal_type : Str) : Int :=
  let st := lowerStr signal_type
  if containsSub (str "funding") st then 15
  else if containsSub (str "partnership") st then 12
  else if containsSub (str "acquisition") st then 20
  else 0

/-- Contribution of the `sector` if/elif chain, in isolation. -/
def sectorBonus (sector : Str) : Int :=
  let s := lowerStr sector
  if containsSub (str "ai") s || containsSub (str "artificial intelligence") s then 8
  else if containsSub (str "cybersecurity") s then 10
  else if containsSub (str "healthcare") s then 7
  else 0

/-! ### Fallback Catalog — `get_fallback_data` (src/utils.py lines 96-204) -/

/-- Fallback record 1: TechFlow Analytics. -/
def fallback_1 : RawMapping :=
  { name := some (str "TechFlow Analytics"),
    description := some (str "AI-powered business intelligence platform for SMBs"),
    growth_reason := some (str "Recent Series A funding of $5M, growing customer base"),
    source_link := some (str "https://techcrunch.com/techflow-analytics"),
    sector := some (str "Business Intelligence"),
    funding_stage := some (str "Series A"),
    signal_type := some (str "Funding"),
    score := some 85 }

/-- Fallback record 2: CloudSync Pro. -/
def fallback_2 : RawMapping :=
  { name := some (str "CloudSync Pro"),
    description := some (str "Enterprise-grade file synchronization solution"),
    growth_reason := some (str "Major partnership with Microsoft, expanding team"),
    source_link := some (str "https://venturebeat.com/cloudsync-pro"),
    sector := some (str "Cloud Computing"),
    funding_stage := some (str "Seed"),
    signal_type := some (str "Partnership"),
    score := some 78 }

/-- Fallback record 3: DataVault Security. -/
def fallback_3 : RawMapping :=
  { name := some (str "DataVault Security"),
    description := some (str "Zero-trust cybersecurity platform for enterprises"),
    growth_reason := some (str "Increased demand post-cyber attacks, new product launch"),
    source_link := some (str "https://techcrunch.com/datavault-security"),
    sector := some (str "Cybersecurity"),
    funding_stage := some (str "Early Stage"),
    signal_type := some (str "Market Demand"),
    score := some 92 }

/-- Fallback record 4: GreenTech Solutions. -/
def fallback_4 : RawMapping :=
  { name := some (str "GreenTech Solutions"),
    description := some (str "Sustainability tracking software for manufacturing"),
    growth_reason := some (str "Regulatory compliance requirements, ESG focus"),
    source_link := some (str "https://greenbiz.com/greentech-solutions"),
    sector := some (str "Sustainability"),
    funding_stage := some (str "Seed"),
    signal_type := some (str "Regulatory"),
    score := some 80 }

/-- Fallback record 5: HealthAI Connect. -/
def fallback_5 : RawMapping :=
  { name := some (str "HealthAI Connect"),
    description := some (str "AI-powered patient care coordination platform"),
    growth_reason := some (str "Healthcare digitization trends, pilot with major hospital"),
    source_link := some (str "https://healthcareitnews.com/healthai-connect"),
    sector := some (str "Healthcare"),
    funding_stage := some (str "Series A"),
    signal_type := some (str "Industry Trend"),
    score := some 88 }

/-- Fallback record 6: EduTech Pro. -/
def fallback_6 : RawMapping :=
  { name := some (str "EduTech Pro"),
    description := some (str "Personalized learning platform for K-12 education"),
    growth_reason := some (str "Remote learning adoption, government contracts"),
    source_link := some (str "https://edtechmagazine.com/edutech-pro"),
    sector := some (str "Education"),
    funding_stage := some (str "Early Stage"),
    signal_type := some (str "Government"),
    score := some 75 }

/-- Fallback record 7: FinFlow Analytics. -/
def fallback_7 : RawMapping :=
  { name := some (str "FinFlow Analytics"),
    description := some (str "Real-time financial data analysis for traders"),
    growth_reason := some (str "Market volatility, institutional interest"),
    source_link := some (str "https://fintechnews.com/finflow-analytics"),
    sector := some (str "Fintech"),
    funding_stage := some (str "Seed"),
    signal_type := some (str "Market Opportunity"),
    score := some 82 }

/-- Fallback record 8: LogiChain Pro. -/
def fallback_8 : RawMapping :=
  { name := some (str "LogiChain Pro"),
    description := some (str "Supply chain optimization using blockchain"),
    growth_reason := some (str "Global supply chain disruptions, Fortune 500 pilots"),
    source_link := some (str "https://supplychaindive.com/logichain-pro"),
    sector := some (str "Logistics"),
    funding_stage := some (str "Series A"),
    signal_type := some (str "Market Disruption"),
    score := some 79 }

/-- Fallback record 9: RetailAI Insights. -/
def fallback_9 : RawMapping :=
  { name := some (str "RetailAI Insights"),
    description := some (str "AI-powered retail analytics and customer insights"),
    growth_reason := some (str "E-commerce growth, major retail partnerships"),
    source_link := some (str "https://retailwire.com/retailai-insights"),
    sector := some (str "Retail"),
    funding_stage := some (str "Early Stage"),
    signal_type := some (str "Partnership"),
    score := some 76 }

/-- Fallback record 10: EnergyGrid Optimizer. -/
def fallback_10 : RawMapping :=
  { name := some (str "EnergyGrid Optimizer"),
    description := some (str "Smart grid management and energy optimization"),
    growth_reason := some (str "Renewable energy transition, government incentives"),
    source_link := some (str "https://energynews.com/energygrid-optimizer"),
    sector := some (str "Energy"),
    funding_stage := some (str "Seed"),
    signal_type := some (str "Policy"),
    score := some 84 }

/-- Model of `get_fallback_data`: the fixed ten-record catalog, in source order. -/
def get_fallback_data : List RawMapping :=
  [fallback_1, fallback_2, fallback_3, fallback_4, fallback_5,
   fallback_6, fallback_7, fallback_8, fallback_9, fallback_10]

/-! ### Validator / Formatter (src/utils.py lines 39-54 and 247-271) -/

/-- The sort key used by `format_startup_data`: the entry's `score` value.
After the per-entry loop every entry carries a score, so the `getD 0`
default is never exercised on the lists the sort actually receives. -/
def scoreKey (m : RawMapping) : Int := m.score.getD 0

/-- One step of the validation loop body (src/utils.py lines 42-51): build a
fresh eight-key dictionary, defaulting each absent field.  The input's
`timestamp` key, if any, is not copied (the new dictionary has no such key). -/
def validateOne (startup : RawMapping) : RawMapping :=
  { name := some (startup.name.getD (str "Unknown Startup")),
    description := some (startup.description.getD (str "No description available")),
    growth_reason := some (startup.growth_reason.getD (str "Growth signals detected")),
    source_link := some (startup.source_link.getD (str "https://example.com")),
    sector := some (startup.sector.getD (str "Technology")),
    funding_stage := some (startup.funding_stage.getD (str "Early Stage")),
    signal_type := some (startup.signal_type.getD (str "News")),
    score := some (startup.score.getD 75),
    timestamp := none }

/-- The validation loop of `parse_saas_startups_response` (lines 39-53):
entries that are not dictionaries are dropped, the rest are defaulted
field by field. -/
def validate_entries (startups : List Entry) : List RawMapping :=
  startups.filterMap fun e =>
    match e with
    | .dict m => some (validateOne m)
    | .nondict => none

/-- The per-entry body of `format_startup_data` (lines 259-267): compute the
growth score when the `score` key is absent, and set `timestamp` to the
capture time `now`. -/
def stampOne (now : Str) (startup : RawMapping) : RawMapping :=
  { startup with
    score := some (startup.score.getD (calculate_growth_score startup)),
    timestamp := some now }

/-- Insert `x` into a score-descending list, before the first element whose
score does not exceed `x`'s: the insertion step of a stable descending sort,
as Python's stable `list.sort(key=..., reverse=True)` behaves. -/
def insertDesc (x : RawMapping) : List RawMapping → List RawMapping
  | [] => [x]
  | y :: ys => if scoreKey y ≤ scoreKey x then x :: y :: ys else y :: insertDesc x ys

/-- Stable sort by `score` descending (model of
`list.sort(key=lambda x: x['score'], reverse=True)`). -/
def sortScoreDesc : List RawMapping → List RawMapping
  | [] => []
  | x :: xs => insertDesc x (sortScoreDesc xs)

/-- Model of `format_startup_data` (lines 247-271): per-entry score
completion and timestamping, then a stable sort by score, highest first. -/
def format_startup_data (now : Str) (startups : List RawMapping) : List RawMapping :=
  sortScoreDesc (startups.map (stampOne now))

/-- The Validator/Formatter as a unit: the validation loop of
`parse_saas_startups_response` followed by `format_startup_data`. -/
def validate_and_format (now : Str) (startups : List Entry) : List RawMapping :=
  format_startup_data now (validate_entries startups)

/-! ### Tier-2 loose extraction — `parse_structured_text` (src/utils.py lines 56-94) -/

/-- Does the text at this position start with a delimiter of the split
pattern (a newline followed by digits and a period, a bullet, or a hyphen)?
Returns the length of the match.  The digits of the first alternative are
taken greedily; the pattern only matches when a period follows them. -/
def delimAt : Str → Option Nat
  | '\n' :: rest =>
      let ds := rest.takeWhile Char.isDigit
      if ds ≠ [] ∧ (rest.drop ds.length).head? = some '.' then some (ds.length + 2)
      else if rest.head? = some '•' then some 2
      else if rest.head? = some '-' then some 2
      else none
  | _ => none

/-- Worker for the split: scan the text, cutting at each delimiter match.
`fuel` bounds the recursion; it never runs out when set to the text length. -/
def splitEntriesAux : Nat → Str → Str → List Str
  | 0, cur, _ => [cur.reverse]
  | _ + 1, cur, [] => [cur.reverse]
  | fuel + 1, cur, c :: t =>
      match delimAt (c :: t) with
      | some n => cur.reverse :: splitEntriesAux fuel [] ((c :: t).drop n)
      | none => splitEntriesAux fuel (c :: cur) t

/-- Model of `re.split(r'\n\d+\.|\n•|\n-', text)`: the pieces of the text
between delimiter matches, in order (delimiters dropped). -/
def splitEntries (text : Str) : List Str :=
  splitEntriesAux text.length [] text

/-- Characters of the regex class `[:\s]`. -/
def isColonOrSpace (c : Char) : Bool := c = ':' || isPySpace c

/-- Case-insensitive literal match of `label` at the head of the text;
returns the remainder on success. -/
def dropCi : Str → Str → Option Str
  | [], cs => some cs
  | _ :: _, [] => none
  | l :: ls, c :: cs => if lowerChar c = lowerChar l then dropCi ls cs else none

/-- Backtracking of the greedy `[:\s]+` against the following `([^\n]+)`
group: try leaving `k` class characters consumed, largest `k` first, and
return the first non-empty group. -/
def groupAfterGap : Nat → Str → Option Str
  | 0, _ => none
  | k + 1, rest =>
      let grp := (rest.drop (k + 1)).takeWhile (fun c => c ≠ '\n')
      if grp ≠ [] then some grp else groupAfterGap k rest

/-- Try the pattern `label[:\s]+([^\n]+)` (case-insensitive) at the current
position; returns the captured group. -/
def labelMatchAt (label : Str) (cs : Str) : Option Str :=
  match dropCi label cs with
  | none => none
  | some rest => groupAfterGap (rest.takeWhile isColonOrSpace).length rest

/-- Model of `re.search(label + r'[:\s]+([^\n]+)', entry, re.IGNORECASE)`:
the captured group of the leftmost match, scanning positions left to right. -/
def searchLabel (label : Str) : Str → Option Str
  | [] => labelMatchAt label []
  | c :: t =>
      match labelMatchAt label (c :: t) with
      | some g => some g
      | none => searchLabel label t

/-- The per-entry body of `parse_structured_text` (lines 71-92): skip
whitespace-only blocks, and build a dictionary only when a `Name` label is
found; `Description`, `Reason` and `Source` fall back to this tier's own
placeholder strings, and the remaining fields are fixed constants. -/
def structuredEntryToMapping (entry : Str) : Option RawMapping :=
  if pyStrip entry = [] then none
  else
    match searchLabel (str "Name") entry with
    | none => none
    | some nm =>
        some
          { name := some (pyStrip nm),
            description :=
              some (((searchLabel (str "Description") entry).map pyStrip).getD
                (str "No description")),
            growth_reason :=
              some (((searchLabel (str "Reason") entry).map pyStrip).getD
                (str "Growth potential detected")),
            source_link :=
              some (((searchLabel (str "Source") entry).map pyStrip).getD
                (str "https://example.com")),
            sector := some (str "Technology"),
            funding_stage := some (str "Early Stage"),
            signal_type := some (str "News"),
            score := some 75 }

/-- Model of `parse_structured_text` (src/utils.py lines 56-94). -/
def parse_structured_text (text : Str) : List RawMapping :=
  (splitEntries text).filterMap structuredEntryToMapping

/-! ### Tier-1 structured extraction and the Response Parser
(src/utils.py lines 11-54) -/

/-- Model of `re.search(r'\[.*\]', text, re.DOTALL)`: the substring of the
text from the first `[` to the last `]`, when the latter follows the
former; `none` when the pattern has no match. -/
def extractBracket (text : Str) : Option Str :=
  match text.dropWhile (fun c => c ≠ '[') with
  | [] => none
  | _ :: rest =>
      match rest.reverse.dropWhile (fun c => c ≠ ']') with
      | [] => none
      | r => some ('[' :: r.reverse)

/-- JSON values, as decoded by the model of `json.loads`.  An integer
numeral decodes to `num` (a Python `int`); a numeral with a fraction or
exponent part, and the constants `Infinity`, `-Infinity` and `NaN`, decode
to `flt` (a Python `float`), carried as the numeral's source text since the
pipeline never computes with such values. -/
inductive Json where
  | str (s : Str)
  | num (n : Int)
  | flt (numeral : Str)
  | bool (b : Bool)
  | null
  | arr (l : List Json)
  | obj (fields : List (Str × Json))

/-- JSON insignificant whitespace. -/
def isJsonWs (c : Char) : Bool := c = ' ' || c = '\t' || c = '\n' || c = '\r'

/-- Skip JSON insignificant whitespace. -/
def skipWs (cs : Str) : Str := cs.dropWhile isJsonWs

/-- The simple JSON escape sequences, as pairs of the character after the
backslash and the character it denotes. -/
def escPairs : List (Char × Char) :=
  [('n', '\n'), ('t', '\t'), ('r', '\r'), ('b', '\x08'), ('f', '\x0c'),
   ('"', '"'), ('\\', '\\'), ('/', '/')]

/-- Decoding of one JSON string escape character. -/
def escChar (c : Char) : Option Char :=
  (escPairs.find? fun p => p.1 = c).map Prod.snd

/-- The hexadecimal alphabet, in digit-value order. -/
def hexAlphabet : Str := str "0123456789abcdef"

/-- The value of one hexadecimal digit, either case. -/
def hexDigitVal (ch : Char) : Option Nat :=
  hexAlphabet.findIdx? fun d => d = lowerChar ch

/-- The value of the four hexadecimal digits of a `\u` escape. -/
def hexQuad (h1 h2 h3 h4 : Char) : Option Nat := do
  let v1 ← hexDigitVal h1
  let v2 ← hexDigitVal h2
  let v3 ← hexDigitVal h3
  let v4 ← hexDigitVal h4
  pure (v1 * 4096 + v2 * 256 + v3 * 16 + v4)

/-- The character of a decoded code point.  A lone surrogate — which Python
keeps in the string but a Lean `Char` cannot hold — becomes the replacement
character; this is the model's one representational deviation, and it does
not affect whether decoding succeeds. -/
def uniChar (code : Nat) : Char :=
  if Nat.isValidChar code then Char.ofNat code else '�'

/-- Parse the body of a JSON string (the opening quote already consumed),
as Python's strict-mode decoder does: the simple escapes of `escPairs`,
`\u` escapes of exactly four hexadecimal digits with surrogate pairs
combined, any other escape an error, and a raw control character (code
point below 32) an error. -/
def pStringAux : Nat → Str → Str → Option (Str × Str)
  | 0, _, _ => none
  | _ + 1, acc, '"' :: t => some (acc.reverse, t)
  | fuel + 1, acc, '\\' :: 'u' :: h1 :: h2 :: h3 :: h4 :: '\\' :: 'u' :: g1 :: g2 :: g3 :: g4 :: tail2 =>
      match hexQuad h1 h2 h3 h4 with
      | none => none
      | some code =>
          match hexQuad g1 g2 g3 g4 with
          | some code2 =>
              if (0xd800 ≤ code ∧ code < 0xdc00) ∧ (0xdc00 ≤ code2 ∧ code2 < 0xe000) then
                pStringAux fuel
                  (uniChar (0x10000 + (code - 0xd800) * 1024 + (code2 - 0xdc00)) :: acc) tail2
              else
                pStringAux fuel (uniChar code :: acc)
                  ('\\' :: 'u' :: g1 :: g2 :: g3 :: g4 :: tail2)
          | none =>
              pStringAux fuel (uniChar code :: acc)
                ('\\' :: 'u' :: g1 :: g2 :: g3 :: g4 :: tail2)
  | fuel + 1, acc, '\\' :: 'u' :: h1 :: h2 :: h3 :: h4 :: tail =>
      match hexQuad h1 h2 h3 h4 with
      | none => none
      | some code => pStringAux fuel (uniChar code :: acc) tail
  | fuel + 1, acc, '\\' :: e :: t =>
      match escChar e with
      | some decoded => pStringAux fuel (decoded :: acc) t
      | none => none
  | _ + 1, _, '\\' :: [] => none
  | _ + 1, _, [] => none
  | fuel + 1, acc, ch :: t => if ch.toNat < 32 then none else pStringAux fuel (ch :: acc) t

/-- Parse the body of a JSON string, the fuel set from the input length:
every recursive call of `pStringAux` consumes at least one character, so
the fuel is never exhausted. -/
def pString (cs : Str) : Option (Str × Str) := pStringAux (cs.length + 1) [] cs

/-- Consume a numeral's fraction part when one is present; a period not
followed by a digit is malformed. -/
def fracPart (cs : Str) : Option (Bool × Str) :=
  match cs with
  | '.' :: t =>
      let ds := t.takeWhile Char.isDigit
      if ds = [] then none else some (true, t.drop ds.length)
  | _ => some (false, cs)

/-- Consume an exponent's optional sign and mandatory digits; an exponent
marker without digits is malformed. -/
def expDigits (t : Str) : Option (Bool × Str) :=
  let t1 :=
    match t with
    | '+' :: t2 => t2
    | '-' :: t2 => t2
    | _ => t
  let ds := t1.takeWhile Char.isDigit
  if ds = [] then none else some (true, t1.drop ds.length)

/-- Consume a numeral's exponent part (`e` or `E`, an optional sign, then
digits) when one is present. -/
def expPart (cs : Str) : Option (Bool × Str) :=
  match cs with
  | 'e' :: t => expDigits t
  | 'E' :: t => expDigits t
  | _ => some (false, cs)

/-- Parse a JSON numeral as `json.loads` classifies it: an optional minus,
an integer part with no leading zero, then optional fraction and exponent
parts.  A plain integer numeral decodes to `Json.num`; one with a fraction
or exponent decodes to `Json.flt` carrying the numeral text. -/
def pNumber (cs : Str) : Option (Json × Str) := do
  let (neg, cs1) : Bool × Str :=
    match cs with
    | '-' :: t => (true, t)
    | _ => (false, cs)
  let ds := cs1.takeWhile Char.isDigit
  if ds = [] then none
  else if 1 < ds.length ∧ ds.head? = some '0' then none
  else
    let (hasFrac, cs2) ← fracPart (cs1.drop ds.length)
    let (hasExp, cs3) ← expPart cs2
    if hasFrac ∨ hasExp then
      pure (.flt (cs.take (cs.length - cs3.length)), cs3)
    else
      let n : Int := ds.foldl (fun a c => a * 10 + (Int.ofNat (c.toNat - 48))) 0
      pure (.num (if neg then -n else n), cs3)

/-- Parse an object key (a quoted string) and its colon separator. -/
def pKeyColon (cs : Str) : Option (Str × Str) :=
  match skipWs cs with
  | '"' :: cs1 => do
      let (key, cs2) ← pString cs1
      match skipWs cs2 with
      | ':' :: cs3 => pure (key, cs3)
      | _ => none
  | _ => none

mutual

/-- Parse one JSON value.  `fuel` bounds the recursion depth and is never
exhausted when set generously from the input length. -/
def pValue : Nat → Str → Option (Json × Str)
  | 0, _ => none
  | fuel + 1, input =>
      let cs := skipWs input
      if cs.take 4 = str "true" then some (.bool true, cs.drop 4)
      else if cs.take 5 = str "false" then some (.bool false, cs.drop 5)
      else if cs.take 4 = str "null" then some (.null, cs.drop 4)
      else if cs.take 8 = str "Infinity" then some (.flt (str "Infinity"), cs.drop 8)
      else if cs.take 9 = str "-Infinity" then some (.flt (str "-Infinity"), cs.drop 9)
      else if cs.take 3 = str "NaN" then some (.flt (str "NaN"), cs.drop 3)
      else
        match cs with
        | '[' :: cs1 => pArray fuel cs1
        | '{' :: cs1 => pObject fuel cs1
        | '"' :: cs1 => do
            let (s, cs2) ← pString cs1
            pure (.str s, cs2)
        | [] => none
        | _ => pNumber cs

/-- Parse a JSON array body (the opening bracket already consumed). -/
def pArray : Nat → Str → Option (Json × Str)
  | 0, _ => none
  | fuel + 1, cs =>
      if (skipWs cs).head? = some ']' then some (.arr [], (skipWs cs).tail)
      else pItems fuel cs []

/-- Parse the comma-separated items of a non-empty JSON array. -/
def pItems : Nat → Str → List Json → Option (Json × Str)
  | 0, _, _ => none
  | fuel + 1, cs, acc => do
      let (v, cs1) ← pValue fuel cs
      match skipWs cs1 with
      | ',' :: cs2 => pItems fuel cs2 (v :: acc)
      | ']' :: cs2 => pure (.arr (v :: acc).reverse, cs2)
      | _ => none

/-- Parse a JSON object body (the opening brace already consumed). -/
def pObject : Nat → Str → Option (Json × Str)
  | 0, _ => none
  | fuel + 1, cs =>
      if (skipWs cs).head? = some '}' then some (.obj [], (skipWs cs).tail)
      else pMembers fuel cs []

/-- Parse the comma-separated members of a non-empty JSON object. -/
def pMembers : Nat → Str → List (Str × Json) → Option (Json × Str)
  | 0, _, _ => none
  | fuel + 1, cs, acc => do
      let (key, cs1) ← pKeyColon cs
      let (v, cs2) ← pValue fuel cs1
      match skipWs cs2 with
      | ',' :: cs3 => pMembers fuel cs3 ((key, v) :: acc)
      | '}' :: cs3 => pure (.obj ((key, v) :: acc).reverse, cs3)
      | _ => none

end


/-- Model of Python `json.loads` on the bracketed substrings the extractor
supplies: arrays, objects, strings (strict mode: raw control characters
are errors, simple and `\u` escapes decoded), numerals (integers to
`num`, leading zeros rejected; fraction or exponent forms to `flt`), the
constants `true`, `false`, `null`, `Infinity`, `-Infinity` and `NaN`, and
mandatory full consumption, so success and decode error coincide with
`json.loads` on every input the pipeline can supply.  A successfully
decoded top-level array yields its element list; a non-array top level is
refused, which no extractor output exercises since the extractor always
supplies a `[`-initial string. -/
def jsonLoads (cs : Str) : Except Unit (List Json) :=
  match pValue (3 * cs.length + 3) cs with
  | some (.arr l, rest) => if skipWs rest = [] then .ok l else .error ()
  | _ => .error ()

/-- Last-occurrence lookup of a key among decoded object members, as later
duplicate keys overwrite earlier ones in a Python dictionary. -/
def jlookup (key : Str) (fields : List (Str × Json)) : Option Json :=
  (fields.reverse.find? fun p => p.1 = key).map Prod.snd

/-- Read a field expected to hold text.  The typed `RawMapping` holds only
the shapes the pipeline's downstream operations consume, so a non-string
value in a text field is modelled as an absent key. -/
def asStr : Option Json → Option Str
  | some (.str s) => some s
  | _ => none

/-- Read a field expected to hold an integer score.  A non-integer number
(a `flt`) is outside the typed `RawMapping`'s shape and is modelled as an
absent key, like any other mistyped field value. -/
def asInt : Option Json → Option Int
  | some (.num n) => some n
  | _ => none

/-- A decoded JSON object, as the dictionary the validation loop receives. -/
def rawOfObj (fields : List (Str × Json)) : RawMapping :=
  { name := asStr (jlookup (str "name") fields),
    description := asStr (jlookup (str "description") fields),
    growth_reason := asStr (jlookup (str "growth_reason") fields),
    source_link := asStr (jlookup (str "source_link") fields),
    sector := asStr (jlookup (str "sector") fields),
    funding_stage := asStr (jlookup (str "funding_stage") fields),
    signal_type := asStr (jlookup (str "signal_type") fields),
    score := asInt (jlookup (str "score") fields),
    timestamp := asStr (jlookup (str "timestamp") fields) }

/-- A decoded JSON array element, as the validation loop sees it: objects
are dictionaries, everything else fails the `isinstance(startup, dict)`
test. -/
def entryOfJson : Json → Entry
  | .obj fields => .dict (rawOfObj fields)
  | _ => .nondict

/-- Model of `parse_saas_startups_response` (src/utils.py lines 11-54).
When the bracket search succeeds, the substring is JSON-decoded; a decode
error is caught and the Fallback Catalog substituted (the `except` branch,
line 36).  When no bracket pair exists, tier-2 loose extraction runs.  The
resulting list then passes through the validation loop. -/
def parse_saas_startups_response (response_text : Str) : List RawMapping :=
  let startups : List Entry :=
    match extractBracket response_text with
    | some json_str =>
        match jsonLoads json_str with
        | .ok l => l.map entryOfJson
        | .error _ => get_fallback_data.map Entry.dict
    | none => (parse_structured_text response_text).map Entry.dict
  validate_entries startups

/-! ### Query Orchestrator — `SaaSSignalMiner` (src/main.py) -/

/-- The observable behaviours of the external collaborator for one scan:
no client was configured (construction failed), the call (or anything in
the `try` block) raised, or the call returned a text blob. -/
inductive ClientResult where
  | noClient
  | failure
  | success (text : Str)

/-- Model of `SaaSSignalMiner.scan_for_startups` (src/main.py lines 60-92):
with no client, or when anything in the `try` block raises, the formatted
Fallback Catalog is returned; on success the response is parsed and
formatted.  The model is a total function: no branch propagates an
exception, matching the catch-all `except` at line 89. -/
def scan_for_startups (now : Str) : ClientResult → List RawMapping
  | .noClient => format_startup_data now get_fallback_data
  | .failure => format_startup_data now get_fallback_data
  | .success text => format_startup_data now (parse_saas_startups_response text)

/-- Is an optional filter criterion active?  Python's
`if sector and sector != "All"` treats an absent argument, an empty string
and the sentinel `"All"` as "no filter". -/
def critActive : Option Str → Bool
  | none => false
  | some s => !(s = []) && !(s = str "All")

/-- Case-insensitive exact match of a record field against a criterion
string, the field read with `.get(key, '')`. -/
def fieldMatches (field : Option Str) (s : Str) : Bool :=
  lowerStr (field.getD []) = lowerStr s

/-- Model of `SaaSSignalMiner.filter_startups` (src/main.py lines 94-141):
three optional case-insensitive equality filters applied in sequence, then
the unconditional `s.get('score', 0) >= min_score` filter. -/
def filter_startups (startups : List RawMapping) (sector funding_stage signal_type : Option Str)
    (min_score : Int) : List RawMapping :=
  let f1 :=
    if critActive sector then
      startups.filter fun (m : RawMapping) => fieldMatches m.sector (sector.getD [])
    else startups
  let f2 :=
    if critActive funding_stage then
      f1.filter fun (m : RawMapping) => fieldMatches m.funding_stage (funding_stage.getD [])
    else f1
  let f3 :=
    if critActive signal_type then
      f2.filter fun (m : RawMapping) => fieldMatches m.signal_type (signal_type.getD [])
    else f2
  f3.filter fun m => decide (min_score ≤ m.score.getD 0)

/-- The record with its `timestamp` key removed: comparing records
"content-wise, timestamp aside". -/
def stripTs (m : RawMapping) : RawMapping := { m with timestamp := none }

/-- The combined keep-condition of `filter_startups`, one conjunction:
every active criterion matched and the score bound met. -/
def keepsRecord (sector funding_stage signal_type : Option Str) (min_score : Int)
    (m : RawMapping) : Bool :=
  (!critActive sector || fieldMatches m.sector ((sector.getD []))) &&
  (!critActive funding_stage || fieldMatches m.funding_stage ((funding_stage.getD []))) &&
  (!critActive signal_type || fieldMatches m.signal_type ((signal_type.getD []))) &&
  decide (min_score ≤ m.score.getD 0)

/-! ### Helper lemmas about the stable descending sort -/

/-- Inserting adds exactly one element. -/
theorem length_insertDesc (x : RawMapping) (l : List RawMapping) :
    (insertDesc x l).length = l.length + 1 := by
  induction l with
  | nil => rfl
  | cons y ys ih =>
      simp only [insertDesc]
      split
      · simp
      · simp [ih]

/-- Sorting preserves length. -/
theorem length_sortScoreDesc (l : List RawMapping) :
    (sortScoreDesc l).length = l.length := by
  induction l with
  | nil => rfl
  | cons x xs ih => simp [sortScoreDesc, length_insertDesc, ih]

/-- Membership in an insertion. -/
theorem mem_insertDesc {a x : RawMapping} {l : List RawMapping} :
    a ∈ insertDesc x l ↔ a = x ∨ a ∈ l := by
  induction l with
  | nil => simp [insertDesc]
  | cons y ys ih =>
      simp only [insertDesc]
      split
      · simp [List.mem_cons]
      · simp only [List.mem_cons, ih]
        tauto

/-- Sorting preserves membership. -/
theorem mem_sortScoreDesc {a : RawMapping} {l : List RawMapping} :
    a ∈ sortScoreDesc l ↔ a ∈ l := by
  induction l with
  | nil => simp [sortScoreDesc]
  | cons x xs ih => simp [sortScoreDesc, mem_insertDesc, ih]

/-- Inserting into a score-descending list keeps it score-descending. -/
theorem pairwise_insertDesc {x : RawMapping} {l : List RawMapping}
    (h : l.Pairwise fun a b => scoreKey b ≤ scoreKey a) :
    (insertDesc x l).Pairwise fun a b => scoreKey b ≤ scoreKey a := by
  induction l with
  | nil => simp [insertDesc]
  | cons y ys ih =>
      rw [List.pairwise_cons] at h
      obtain ⟨hy, hys⟩ := h
      simp only [insertDesc]
      split
      · rename_i hxy
        refine List.Pairwise.cons ?_ (List.Pairwise.cons hy hys)
        intro b hb
        rcases List.mem_cons.mp hb with rfl | hb
        · exact hxy
        · exact le_trans (hy b hb) hxy
      · rename_i hxy
        refine List.Pairwise.cons ?_ (ih hys)
        intro b hb
        rcases mem_insertDesc.mp hb with rfl | hb
        · omega
        · exact hy b hb

/-- The sort's output is score-descending. -/
theorem pairwise_sortScoreDesc (l : List RawMapping) :
    (sortScoreDesc l).Pairwise fun a b => scoreKey b ≤ scoreKey a := by
  induction l with
  | nil => simp [sortScoreDesc]
  | cons x xs ih => exact pairwise_insertDesc ih

/-- Stability of the insertion step: restricted to any one score value, an
insertion puts the new element in front and moves nothing else. -/
theorem filter_insertDesc (s : Int) (x : RawMapping) (l : List RawMapping) :
    (insertDesc x l).filter (fun r => scoreKey r == s) =
      if scoreKey x == s then x :: l.filter (fun r => scoreKey r == s)
      else l.filter (fun r => scoreKey r == s) := by
  induction l with
  | nil =>
      simp only [insertDesc]
      rw [List.filter_cons, List.filter_nil]
  | cons y ys ih =>
      simp only [insertDesc]
      split
      · rw [List.filter_cons]
      · rename_i hyx
        rw [List.filter_cons, ih]
        by_cases hx : scoreKey x = s
        · have hy : ¬ scoreKey y = s := by omega
          simp [hx, hy, List.filter_cons, beq_iff_eq]
        · simp [hx, List.filter_cons, beq_iff_eq]

/-- Stability of the sort: restricted to any one score value, the sort is
the identity on the input order. -/
theorem filter_sortScoreDesc (s : Int) (l : List RawMapping) :
    (sortScoreDesc l).filter (fun r => scoreKey r == s) =
      l.filter (fun r => scoreKey r == s) := by
  induction l with
  | nil => rfl
  | cons x xs ih =>
      simp only [sortScoreDesc]
      rw [filter_insertDesc, ih, List.filter_cons]

/-- A score-preserving map commutes with the insertion step. -/
theorem map_insertDesc (f : RawMapping → RawMapping) (hf : ∀ a, scoreKey (f a) = scoreKey a)
    (x : RawMapping) (l : List RawMapping) :
    (insertDesc x l).map f = insertDesc (f x) (l.map f) := by
  induction l with
  | nil => rfl
  | cons y ys ih =>
      simp only [insertDesc, List.map_cons, hf]
      split
      · simp
      · simp [ih]

/-- A score-preserving map commutes with the sort. -/
theorem map_sortScoreDesc (f : RawMapping → RawMapping) (hf : ∀ a, scoreKey (f a) = scoreKey a)
    (l : List RawMapping) :
    (sortScoreDesc l).map f = sortScoreDesc (l.map f) := by
  induction l with
  | nil => rfl
  | cons x xs ih => simp [sortScoreDesc, map_insertDesc f hf, ih]

/-! ### Helper lemmas about the validator, scorer and filter -/

/-- The validation loop keeps exactly the dictionary entries. -/
theorem length_validate_entries (startups : List Entry) :
    (validate_entries startups).length =
      (startups.filter fun e => match e with | .dict _ => true | .nondict => false).length := by
  induction startups with
  | nil => rfl
  | cons e t ih =>
      cases e with
      | dict m =>
          simp only [validate_entries, List.filterMap_cons] at ih ⊢
          simp [List.filter_cons, ih]
      | nondict =>
          simp only [validate_entries, List.filterMap_cons] at ih ⊢
          simp [List.filter_cons, ih]

/-- The clamp `min(100, max(0, x))` lands in [0, 100]. -/
theorem clamp_bounds (x : Int) : 0 ≤ min 100 (max 0 x) ∧ min 100 (max 0 x) ≤ 100 :=
  ⟨le_min (by norm_num) (le_max_left 0 x), min_le_left _ _⟩

/-- The Heuristic Scorer always returns a value in [0, 100]. -/
theorem scorer_bounds (m : RawMapping) :
    0 ≤ calculate_growth_score m ∧ calculate_growth_score m ≤ 100 := by
  unfold calculate_growth_score
  exact clamp_bounds _

/-- The Heuristic Scorer decomposed: the clamped sum of the base and the
three independent chain contributions. -/
theorem scorer_decomposed (m : RawMapping) :
    calculate_growth_score m =
      min 100 (max 0 (50 + fundingBonus (m.funding_stage.getD [])
        + signalBonus (m.signal_type.getD []) + sectorBonus (m.sector.getD []))) := by
  have h1 : ∀ fs : Str,
      (if containsSub (str "seed") (lowerStr fs) then (50 : Int) + 10
       else if containsSub (str "series a") (lowerStr fs) then 50 + 15
       else if containsSub (str "series b") (lowerStr fs) then 50 + 20
       else 50) = 50 + fundingBonus fs := by
    intro fs
    simp only [fundingBonus]
    split_ifs <;> ring
  have h2 : ∀ (b : Int) (st : Str),
      (if containsSub (str "funding") (lowerStr st) then b + 15
       else if containsSub (str "partnership") (lowerStr st) then b + 12
       else if containsSub (str "acquisition") (lowerStr st) then b + 20
       else b) = b + signalBonus st := by
    intro b st
    simp only [signalBonus]
    split_ifs <;> ring
  have h3 : ∀ (b : Int) (sec : Str),
      (if containsSub (str "ai") (lowerStr sec) || containsSub (str "artificial intelligence") (lowerStr sec) then b + 8
       else if containsSub (str "cybersecurity") (lowerStr sec) then b + 10
       else if containsSub (str "healthcare") (lowerStr sec) then b + 7
       else b) = b + sectorBonus sec := by
    intro b sec
    simp only [sectorBonus]
    split_ifs <;> ring
  simp only [calculate_growth_score]
  rw [h1, h2, h3]

/-- The function `filter_startups` in one pass: it keeps exactly the records passing the
conjunction `keepsRecord` of the active criteria and the score bound, in
input order. -/
theorem filter_startups_eq_filter (startups : List RawMapping)
    (sector funding_stage signal_type : Option Str) (min_score : Int) :
    filter_startups startups sector funding_stage signal_type min_score =
      startups.filter (keepsRecord sector funding_stage signal_type min_score) := by
  cases h1 : critActive sector <;> cases h2 : critActive funding_stage <;>
    cases h3 : critActive signal_type
  all_goals
    simp only [filter_startups, h1, h2, h3, Bool.false_eq_true, if_true, if_false,
      ite_true, ite_false, List.filter_filter]
    exact List.filter_congr fun a _ => by
      simp [keepsRecord, h1, h2, h3, Bool.and_assoc, Bool.and_comm, Bool.and_left_comm]

/-- Decode classification at the boundary cases of the numeral and string
grammars: a leading-zero numeral and a raw control character in a string
are decode errors (so the parser substitutes the Fallback Catalog), while
a fractional numeral, a `\u` escape and the non-standard `Infinity`
constant decode successfully (so the parser validates the decoded
elements). -/
theorem jsonLoads_boundary_cases :
    jsonLoads (str "[01]") = .error ()
  ∧ (parse_saas_startups_response (str "[01]")).length = 10
  ∧ jsonLoads (str "[\"a\nb\"]") = .error ()
  ∧ jsonLoads (str "[\x7b\"score\":1.5\x7d]") =
      .ok [Json.obj [(str "score", Json.flt (str "1.5"))]]
  ∧ (parse_saas_startups_response (str "[\x7b\"score\":1.5\x7d]")).length = 1
  ∧ jsonLoads (str "[\"\\u0041\"]") = .ok [Json.str (str "A")]
  ∧ jsonLoads (str "[Infinity]") = .ok [Json.flt (str "Infinity")] :=
  ⟨rfl, rfl, rfl, rfl, rfl, rfl, rfl⟩

/-! ### The claims -/

/-- C4: the Heuristic Scorer is a deterministic pure function of
`(funding_stage, signal_type, sector)` — it is a Lean function of exactly
those three fields — equal to the clamp into [0, 100] of base 50 plus the
three exclusive first-match if/elif chain contributions (seed +10 /
series a +15 / series b +20; funding +15 / partnership +12 /
acquisition +20; ai or artificial intelligence +8 / cybersecurity +10 /
healthcare +7, all case-insensitive substring checks), and in particular
`score(funding_stage="Series A", signal_type="Funding",
sector="Cybersecurity")` equals exactly 90. -/
theorem c4_scorer_deterministic_and_exact :
    (∀ m : RawMapping,
        calculate_growth_score m =
          min 100 (max 0 (50 + fundingBonus (m.funding_stage.getD [])
            + signalBonus (m.signal_type.getD []) + sectorBonus (m.sector.getD [])))
        ∧ 0 ≤ calculate_growth_score m ∧ calculate_growth_score m ≤ 100)
    ∧ calculate_growth_score
        { funding_stage := some (str "Series A"), signal_type := some (str "Funding"),
          sector := some (str "Cybersecurity") } = 90 :=
  ⟨fun m => ⟨scorer_decomposed m, scorer_bounds m⟩, by decide⟩

/-- C7: formatting the Fallback Catalog yields exactly 10 records, every
original field value preserved except `timestamp` (overwritten at
formatting time; scores preserved since present), sorted by score
descending as 92, 88, 85, 84, 82, 80, 79, 78, 76, 75. -/
theorem c7_fallback_catalog_roundtrip (now : Str) :
    (format_startup_data now get_fallback_data).length = 10
  ∧ (format_startup_data now get_fallback_data).map (fun r => r.score) =
      [some 92, some 88, some 85, some 84, some 82, some 80, some 79, some 78,
       some 76, some 75]
  ∧ (format_startup_data now get_fallback_data).map stripTs =
      [fallback_3, fallback_5, fallback_1, fallback_10, fallback_7, fallback_4,
       fallback_8, fallback_2, fallback_9, fallback_6]
  ∧ (format_startup_data now get_fallback_data).map (fun r => r.timestamp) =
      List.replicate 10 (some now) :=
  ⟨rfl, rfl, rfl, rfl⟩

/-- C3: for every behaviour of the external collaborator `scan()` returns a
value (the model is a total function — no exception escapes), and when the
collaborator always fails, or no client is configured, the result equals
the Validator/Formatter applied to the Fallback Catalog, content-wise
apart from the capture timestamp. -/
theorem c3_scan_total_failure_path (now now2 : Str) :
    (scan_for_startups now .noClient).map stripTs =
      (format_startup_data now2 get_fallback_data).map stripTs
  ∧ (scan_for_startups now .failure).map stripTs =
      (format_startup_data now2 get_fallback_data).map stripTs := by
  have key : (format_startup_data now get_fallback_data).map stripTs =
      (format_startup_data now2 get_fallback_data).map stripTs := by
    simp only [format_startup_data]
    rw [map_sortScoreDesc stripTs (fun a => rfl), map_sortScoreDesc stripTs (fun a => rfl),
      List.map_map, List.map_map]
    have h : (stripTs ∘ stampOne now) = (stripTs ∘ stampOne now2) := funext fun m => rfl
    rw [h]
  exact ⟨key, key⟩

/-- C5: for every input sequence of entries, the Validator/Formatter raises
no exception (the model is total) and every record it outputs stems from a
dictionary entry of the input, has all nine fields populated, and carries
the documented default constant in each text field whose input key was
absent. -/
theorem c5_validator_populates_defaults (startups : List Entry) (now : Str) (r : RawMapping)
    (hr : r ∈ validate_and_format now startups) :
    (r.name.isSome ∧ r.description.isSome ∧ r.growth_reason.isSome ∧ r.source_link.isSome
      ∧ r.sector.isSome ∧ r.funding_stage.isSome ∧ r.signal_type.isSome ∧ r.score.isSome
      ∧ r.timestamp.isSome)
  ∧ ∃ m : RawMapping, Entry.dict m ∈ startups ∧ r = stampOne now (validateOne m)
      ∧ (m.name = none → r.name = some (str "Unknown Startup"))
      ∧ (m.description = none → r.description = some (str "No description available"))
      ∧ (m.growth_reason = none → r.growth_reason = some (str "Growth signals detected"))
      ∧ (m.source_link = none → r.source_link = some (str "https://example.com"))
      ∧ (m.sector = none → r.sector = some (str "Technology"))
      ∧ (m.funding_stage = none → r.funding_stage = some (str "Early Stage"))
      ∧ (m.signal_type = none → r.signal_type = some (str "News")) := by
  simp only [validate_and_format, format_startup_data] at hr
  rw [mem_sortScoreDesc] at hr
  obtain ⟨x, hx, hxr⟩ := List.mem_map.mp hr
  obtain ⟨e, he, hfe⟩ := List.mem_filterMap.mp hx
  cases e with
  | nondict => simp at hfe
  | dict m =>
      simp only [Option.some.injEq] at hfe
      subst hfe
      subst hxr
      refine ⟨⟨rfl, rfl, rfl, rfl, rfl, rfl, rfl, rfl, rfl⟩, m, he, rfl, ?_, ?_, ?_, ?_, ?_, ?_, ?_⟩
      all_goals intro h
      all_goals simp [stampOne, validateOne, h]

/-- Witness for C5: the Validator/Formatter applied to one empty dictionary
populates every field with its documented default. -/
theorem c5_validator_populates_defaults_witness :
    ((stampOne (str "t") (validateOne {})).name.isSome
      ∧ (stampOne (str "t") (validateOne {})).description.isSome
      ∧ (stampOne (str "t") (validateOne {})).growth_reason.isSome
      ∧ (stampOne (str "t") (validateOne {})).source_link.isSome
      ∧ (stampOne (str "t") (validateOne {})).sector.isSome
      ∧ (stampOne (str "t") (validateOne {})).funding_stage.isSome
      ∧ (stampOne (str "t") (validateOne {})).signal_type.isSome
      ∧ (stampOne (str "t") (validateOne {})).score.isSome
      ∧ (stampOne (str "t") (validateOne {})).timestamp.isSome)
  ∧ ∃ m : RawMapping, Entry.dict m ∈ [Entry.dict {}]
      ∧ stampOne (str "t") (validateOne {}) = stampOne (str "t") (validateOne m)
      ∧ (m.name = none →
          (stampOne (str "t") (validateOne {})).name = some (str "Unknown Startup"))
      ∧ (m.description = none →
          (stampOne (str "t") (validateOne {})).description = some (str "No description available"))
      ∧ (m.growth_reason = none →
          (stampOne (str "t") (validateOne {})).growth_reason = some (str "Growth signals detected"))
      ∧ (m.source_link = none →
          (stampOne (str "t") (validateOne {})).source_link = some (str "https://example.com"))
      ∧ (m.sector = none →
          (stampOne (str "t") (validateOne {})).sector = some (str "Technology"))
      ∧ (m.funding_stage = none →
          (stampOne (str "t") (validateOne {})).funding_stage = some (str "Early Stage"))
      ∧ (m.signal_type = none →
          (stampOne (str "t") (validateOne {})).signal_type = some (str "News")) :=
  c5_validator_populates_defaults [Entry.dict {}] (str "t")
    (stampOne (str "t") (validateOne {})) (by decide)

/-- C6: for every input sequence of N entries the Validator/Formatter
output has length at most N — exactly the number of dictionary entries,
the rest are dropped — is sorted by score non-increasing, and the sort is
stable: restricted to any one score value it equals the input-ordered
stamped sequence. -/
theorem c6_validator_length_sorted_stable (startups : List Entry) (now : Str) :
    (validate_and_format now startups).length ≤ startups.length
  ∧ (validate_and_format now startups).length =
      (startups.filter fun e => match e with | .dict _ => true | .nondict => false).length
  ∧ (validate_and_format now startups).Pairwise (fun a b => scoreKey b ≤ scoreKey a)
  ∧ ∀ s : Int,
      (validate_and_format now startups).filter (fun r => scoreKey r == s) =
        ((validate_entries startups).map (stampOne now)).filter (fun r => scoreKey r == s) := by
  refine ⟨?_, ?_, ?_, ?_⟩
  · simp only [validate_and_format, format_startup_data, length_sortScoreDesc,
      List.length_map, validate_entries]
    exact List.length_filterMap_le _ _
  · simp only [validate_and_format, format_startup_data, length_sortScoreDesc,
      List.length_map]
    exact length_validate_entries startups
  · exact pairwise_sortScoreDesc _
  · intro s
    exact filter_sortScoreDesc s _

/-- C2 counterexample: a source-supplied score of 150 passes through the
Validator/Formatter unchanged, so the output's score field is not within
[0, 100]. -/
theorem c2_counterexample :
    (validate_and_format (str "t") [Entry.dict { score := some 150 }]).map
        (fun r => r.score) = [some 150]
  ∧ ¬((150 : Int) ≤ 100) := by
  refine ⟨rfl, by norm_num⟩

/-- C2 amended: every record leaving the Validator/Formatter carries a
score, and that score is either a value the source supplied for some input
record (passed through unchanged, possibly outside [0, 100]) or was
computed by the Scorer, in which case it lies within [0, 100]. -/
theorem c2_amended_score_provenance (now : Str) (startups : List RawMapping) (r : RawMapping)
    (hr : r ∈ format_startup_data now startups) :
    ∃ v : Int, r.score = some v ∧
      ((∃ m ∈ startups, m.score = some v) ∨ (0 ≤ v ∧ v ≤ 100)) := by
  simp only [format_startup_data] at hr
  rw [mem_sortScoreDesc] at hr
  obtain ⟨m, hm, hmr⟩ := List.mem_map.mp hr
  subst hmr
  cases hsc : m.score with
  | some w => exact ⟨w, by simp [stampOne, hsc], Or.inl ⟨m, hm, hsc⟩⟩
  | none =>
      exact ⟨calculate_growth_score m, by simp [stampOne, hsc], Or.inr (scorer_bounds m)⟩

/-- Witness for C2 amended: a record whose score the Scorer computed
carries a score in [0, 100]. -/
theorem c2_amended_score_provenance_witness :
    ∃ v : Int,
      (stampOne (str "t") { funding_stage := some (str "Seed") }).score = some v ∧
        ((∃ m ∈ [({ funding_stage := some (str "Seed") } : RawMapping)], m.score = some v)
          ∨ (0 ≤ v ∧ v ≤ 100)) :=
  c2_amended_score_provenance (str "t") [{ funding_stage := some (str "Seed") }]
    (stampOne (str "t") { funding_stage := some (str "Seed") }) (by decide)

/-- C1 counterexample: on the input `"[,]"` tier-1 finds a bracket pair and
its decode raises; tier-2 would find no entries, so the claim predicts an
empty result, yet the parser substitutes the ten-record Fallback Catalog in
place of attempting tier-2. -/
theorem c1_counterexample :
    (extractBracket (str "[,]")).isSome = true
  ∧ jsonLoads (str "[,]") = .error ()
  ∧ parse_structured_text (str "[,]") = []
  ∧ parse_saas_startups_response (str "[,]") ≠ []
  ∧ (parse_saas_startups_response (str "[,]")).length = 10 := by
  refine ⟨rfl, rfl, by decide, by decide, rfl⟩

/-- C1 amended: when tier-1 finds a bracket pair and its structured decode
raises a decode error, the parser catches the error and substitutes the
validated ten-record Fallback Catalog (it does not attempt tier-2); when
the decode succeeds the decoded elements are validated (an empty array
yields an empty sequence); tier-2 loose extraction is attempted only when
no bracket pair is found, and when it yields zero entries the parser
returns an empty sequence.  The parser is a total function: it never
raises to its caller. -/
theorem c1_amended_decode_error_policy (text : Str) :
    (∀ s : Str, extractBracket text = some s → jsonLoads s = .error () →
        parse_saas_startups_response text =
            validate_entries (get_fallback_data.map Entry.dict)
          ∧ (parse_saas_startups_response text).length = 10)
  ∧ (∀ (s : Str) (l : List Json), extractBracket text = some s → jsonLoads s = .ok l →
        parse_saas_startups_response text = validate_entries (l.map entryOfJson))
  ∧ (extractBracket text = none →
        parse_saas_startups_response text =
          validate_entries ((parse_structured_text text).map Entry.dict))
  ∧ (extractBracket text = none → parse_structured_text text = [] →
        parse_saas_startups_response text = []) := by
  refine ⟨?_, ?_, ?_, ?_⟩
  · intro s h1 h2
    constructor
    · simp only [parse_saas_startups_response, h1, h2]
    · simp only [parse_saas_startups_response, h1, h2]
      rfl
  · intro s l h1 h2
    simp only [parse_saas_startups_response, h1, h2]
  · intro h1
    simp only [parse_saas_startups_response, h1]
  · intro h1 h2
    simp only [parse_saas_startups_response, h1, h2, List.map_nil]
    rfl

/-- Witness for C1 amended: the decode-error branch at the concrete input
`"[,]"`. -/
theorem c1_amended_decode_error_policy_witness :
    parse_saas_startups_response (str "[,]") =
        validate_entries (get_fallback_data.map Entry.dict)
      ∧ (parse_saas_startups_response (str "[,]")).length = 10 :=
  (c1_amended_decode_error_policy (str "[,]")).1 (str "[,]") rfl rfl

/-- C8 counterexample: the default `min_score = 0` still applies as
`score >= 0`, so filtering with all-default arguments drops a record whose
source-supplied score is negative — the all-default call is not the
identity. -/
theorem c8_counterexample :
    filter_startups [{ score := some (-1) }] none none none 0 = []
  ∧ ([({ score := some (-1) } : RawMapping)] ≠ []) := by
  refine ⟨by decide, by decide⟩

/-- C8 amended: the filter operation keeps exactly the records satisfying
the conjunction of the provided criteria — each of sector, funding_stage,
signal_type, when provided and not a sentinel no-filter value, as a
case-insensitive exact match, and always `score >= min_score` — in input
order, without touching the input (the model is a pure function); the
all-default call returns the input unchanged provided every record's score
(0 when absent) is non-negative. -/
theorem c8_amended_filter_conjunction (startups : List RawMapping)
    (sector funding_stage signal_type : Option Str) (min_score : Int) :
    filter_startups startups sector funding_stage signal_type min_score =
      startups.filter (keepsRecord sector funding_stage signal_type min_score)
  ∧ ((∀ m ∈ startups, 0 ≤ m.score.getD 0) →
      filter_startups startups none none none 0 = startups) := by
  refine ⟨filter_startups_eq_filter startups sector funding_stage signal_type min_score, ?_⟩
  intro h
  rw [filter_startups_eq_filter]
  refine List.filter_eq_self.mpr fun m hm => ?_
  simp [keepsRecord, critActive, h m hm]

/-- Witness for C8 amended: on a one-record list the sector filter is the
single-pass conjunction filter, and the all-default call is the
identity. -/
theorem c8_amended_filter_conjunction_witness :
    (filter_startups [fallback_1] (some (str "cloud computing")) none none 80 =
        [fallback_1].filter (keepsRecord (some (str "cloud computing")) none none 80))
  ∧ filter_startups [fallback_1] none none none 0 = [fallback_1] :=
  ⟨(c8_amended_filter_conjunction [fallback_1] (some (str "cloud computing")) none none 80).1,
   (c8_amended_filter_conjunction [fallback_1] none none none 0).2 (by decide)⟩

/-- C9 counterexample: on the loose-format input the parser yields one
mapping whose `growth_reason` is this tier's own placeholder
"Growth potential detected", not the claimed default constant
"Growth signals detected". -/
theorem c9_counterexample :
    (parse_structured_text (str "1. Name: Acme Corp\nDescription: Widgets\n")).map
        (fun m => m.growth_reason) = [some (str "Growth potential detected")]
  ∧ str "Growth potential detected" ≠ str "Growth signals detected" := by
  refine ⟨by decide, by decide⟩

/-- C9 amended: in tier-2 loose extraction a block becomes a mapping only
when a Name label match is found, and for the input text
`"1. Name: Acme Corp\nDescription: Widgets\n"` (no bracket pair) the parser
returns exactly one mapping with name "Acme Corp", description "Widgets",
the tier's own placeholder "Growth potential detected" for the absent
Reason label, and the fixed defaults source_link "https://example.com",
sector "Technology", funding_stage "Early Stage", signal_type "News" and
score 75. -/
theorem c9_amended_tier2_extraction (text : Str) :
    (∀ m ∈ parse_structured_text text,
        ∃ entry ∈ splitEntries text,
          (searchLabel (str "Name") entry).isSome
            ∧ structuredEntryToMapping entry = some m)
  ∧ extractBracket (str "1. Name: Acme Corp\nDescription: Widgets\n") = none
  ∧ parse_structured_text (str "1. Name: Acme Corp\nDescription: Widgets\n") =
      [{ name := some (str "Acme Corp"),
         description := some (str "Widgets"),
         growth_reason := some (str "Growth potential detected"),
         source_link := some (str "https://example.com"),
         sector := some (str "Technology"),
         funding_stage := some (str "Early Stage"),
         signal_type := some (str "News"),
         score := some 75 }] := by
  refine ⟨?_, by decide, by decide⟩
  intro m hm
  obtain ⟨e, he, hfe⟩ := List.mem_filterMap.mp hm
  refine ⟨e, he, ?_, hfe⟩
  cases h : searchLabel (str "Name") e with
  | some g => simp [Option.isSome]
  | none => simp [structuredEntryToMapping, h] at hfe

/-- Witness for C9 amended: the Acme entry's block carries a Name match and
produces exactly the mapping above. -/
theorem c9_amended_tier2_extraction_witness :
    ∃ entry ∈ splitEntries (str "1. Name: Acme Corp\nDescription: Widgets\n"),
      (searchLabel (str "Name") entry).isSome
        ∧ structuredEntryToMapping entry = some
            { name := some (str "Acme Corp"),
              description := some (str "Widgets"),
              growth_reason := some (str "Growth potential detected"),
              source_link := some (str "https://example.com"),
              sector := some (str "Technology"),
              funding_stage := some (str "Early Stage"),
              signal_type := some (str "News"),
              score := some 75 } :=
  (c9_amended_tier2_extraction (str "1. Name: Acme Corp\nDescription: Widgets\n")).1
    { name := some (str "Acme Corp"),
      description := some (str "Widgets"),
      growth_reason := some (str "Growth potential detected"),
      source_link := some (str "https://example.com"),
      sector := some (str "Technology"),
      funding_stage := some (str "Early Stage"),
      signal_type := some (str "News"),
      score := some 75 } (by decide)

/-- C10: a record lacking a score is treated as scoring 0 by the filter
operation: it survives exactly when `min_score <= 0` and it satisfies the
other provided criteria. -/
theorem c10_missing_score_treated_as_zero (startups : List RawMapping)
    (sector funding_stage signal_type : Option Str) (min_score : Int) (m : RawMapping)
    (hm : m ∈ startups) (hs : m.score = none) :
    m ∈ filter_startups startups sector funding_stage signal_type min_score ↔
      ((!critActive sector || fieldMatches m.sector (sector.getD []))
        && (!critActive funding_stage || fieldMatches m.funding_stage (funding_stage.getD []))
        && (!critActive signal_type || fieldMatches m.signal_type (signal_type.getD []))) = true
      ∧ min_score ≤ 0 := by
  rw [filter_startups_eq_filter, List.mem_filter]
  simp [keepsRecord, hm, hs, and_assoc]

/-- Witness for C10: a record without a score and with the matching sector
survives the sector filter at the default `min_score = 0`. -/
theorem c10_missing_score_treated_as_zero_witness :
    ({ sector := some (str "Fintech") } : RawMapping) ∈
        filter_startups [{ sector := some (str "Fintech") }] (some (str "fintech")) none none 0 ↔
      ((!critActive (some (str "fintech"))
          || fieldMatches (({ sector := some (str "Fintech") } : RawMapping)).sector
              ((some (str "fintech")).getD []))
        && (!critActive none
          || fieldMatches (({ sector := some (str "Fintech") } : RawMapping)).funding_stage
              ((none : Option Str).getD []))
        && (!critActive none
          || fieldMatches (({ sector := some (str "Fintech") } : RawMapping)).signal_type
              ((none : Option Str).getD []))) = true
      ∧ (0 : Int) ≤ 0 :=
  c10_missing_score_treated_as_zero [{ sector := some (str "Fintech") }]
    (some (str "fintech")) none none 0 { sector := some (str "Fintech") } (by decide) rfl
